import Mathlib

/-!
Verification of the Pharma-Guard variant-to-risk pipeline.

Shallow embedding of the JavaScript source:
  * `backend/parser/vcfParser.js`        — `parseVCF`, `parseINFO`, `TARGET_GENES`
  * `backend/services/phenotypeMapper.js`— `normalizeDiplotype`, `determineDiplotype`,
    `determinePhenotypeByGene`, `determinePhenotype`, the per-gene phenotype tables and
    the SLCO1B1/DPYD allele-function (activity-score) maps
  * `backend/services/riskEngine.js`     — `calculateRisk`, `RISK_RULES`, `SEVERITY_MAP`,
    `DRUG_GENE_MAP`, `SUPPORTED_DRUGS`

Modelling conventions:
  * JavaScript strings are Lean `String` (a list of characters); the handful of string
    operations the source uses (`split` on a one-character separator, `trim`,
    `toUpperCase`, `toLowerCase`, `startsWith`, `substring(1)`) are defined below by
    recursion on `String.data` so that proofs can reason about them.
    `localeCompare` is modelled as code-point lexicographic comparison.
  * JavaScript objects used as dictionaries are association lists `List (key × value)`;
    property read is `List.lookup` (keys are unique by construction: the write
    operation `setKey` overwrites an existing key in place, as JS assignment does).
  * JavaScript numbers appearing here (confidence scores 0, 0.5, 0.85, 0.9, 0.95 and
    activity scores 0, 0.5, 1) are modelled as `ℚ`; all arithmetic performed on them
    by the source (sums of activity scores, threshold comparisons) is exact in both
    binary floating point and `ℚ`.
  * `parseInt(x.replace(/[^0-9]/g, '')) || 0` is modelled as the numeric value of the
    digit characters of `x` (0 when there are none).
-/

/-! ## Generic string helpers (JS string primitives) -/

/-- Comparison of two naturals as a three-way `Ordering` (sign of JS `a - b`). -/
def natCmp (a b : Nat) : Ordering :=
  if a < b then .lt else if b < a then .gt else .eq

/-- Code-point lexicographic comparison of character lists; model of the default
behaviour of JS `String.prototype.localeCompare` on the ASCII labels this program
handles. -/
def lcmp : List Char → List Char → Ordering
  | [], [] => .eq
  | [], _ :: _ => .lt
  | _ :: _, [] => .gt
  | a :: as, b :: bs =>
    match natCmp a.toNat b.toNat with
    | .eq => lcmp as bs
    | o => o

/-- JS `String.prototype.split` with a one-character separator, on character lists.
`splitCL c l` always returns a non-empty list of chunks. -/
def splitCL (c : Char) : List Char → List (List Char)
  | [] => [[]]
  | x :: xs =>
    match splitCL c xs with
    | [] => [[]]
    | h :: t => if x = c then [] :: h :: t else (x :: h) :: t

/-- JS `s.split(c)` for a one-character separator `c`. -/
def splitChar (c : Char) (s : String) : List String :=
  (splitCL c s.data).map String.mk

/-- JS `String.prototype.trim` on character lists (leading and trailing whitespace
removed). -/
def trimCL (l : List Char) : List Char :=
  ((l.dropWhile Char.isWhitespace).reverse.dropWhile Char.isWhitespace).reverse

/-- JS `s.trim()`. -/
def trimStr (s : String) : String := ⟨trimCL s.data⟩

/-- JS `s.toUpperCase()` (ASCII case mapping, which covers every string this program
compares after upper-casing). -/
def toUpperStr (s : String) : String := ⟨s.data.map Char.toUpper⟩

/-- JS `s.toLowerCase()` (ASCII case mapping). -/
def toLowerStr (s : String) : String := ⟨s.data.map Char.toLower⟩

/-- JS `p.startsWith(s)`-style check: `strStarts p s` is `true` iff `p` is a prefix
of `s`. -/
def strStarts (p s : String) : Bool := p.data.isPrefixOf s.data

/-- JS `s.substring(1)`. -/
def strSub1 (s : String) : String := ⟨s.data.drop 1⟩

/-- JS `a || b` for strings: `a` when truthy (non-empty), else `b`. -/
def jsOrS (a b : String) : String := if a = "" then b else a

/-- JS `o[k] || b` where `o[k]` may be `undefined`: the stored string when present
and truthy, else `b`. -/
def jsOrOpt (o : Option String) (b : String) : String :=
  match o with
  | none => b
  | some s => if s = "" then b else s

/-- JS object assignment `o[k] = v` on an association list: overwrite the existing
binding in place (keeping its position, as JS property order does), else append. -/
def setKey {β : Type} : List (String × β) → String → β → List (String × β)
  | [], k, v => [(k, v)]
  | (k', v') :: rest, k, v =>
    if k' = k then (k, v) :: rest else (k', v') :: setKey rest k v

/-- JS array indexing `fields[i]` where `i` may be `undefined` and out-of-range
reads give `undefined`; `undefined` is modelled as `""` (every consumer of these
reads applies `|| default` right away, and `||` treats `undefined` and `""` alike). -/
def fieldAt (fields : List String) : Option Nat → String
  | none => ""
  | some i => fields.getD i ""

/-! ## Phenotype mapper (`backend/services/phenotypeMapper.js`) -/

/-- `SLCO1B1_ALLELE_FUNCTION`: star allele → activity score. -/
def SLCO1B1_ALLELE_FUNCTION : List (String × ℚ) :=
  [("*1", 1), ("*1a", 1), ("*1A", 1), ("*1b", 1), ("*1B", 1),
   ("*5", 0), ("*15", 0), ("*17", 0)]

/-- `DPYD_ALLELE_FUNCTION`: star allele → activity score. -/
def DPYD_ALLELE_FUNCTION : List (String × ℚ) :=
  [("*1", 1), ("*2A", 0), ("*5", mkRat 1 2), ("*13", mkRat 1 2)]

/-- `CYP2C19_PHENOTYPE_MAP`: diplotype → phenotype. -/
def CYP2C19_PHENOTYPE_MAP : List (String × String) :=
  [("*1/*1", "NM"), ("*1/*17", "RM"), ("*17/*17", "UM"),
   ("*1/*2", "IM"), ("*1/*3", "IM"), ("*2/*17", "IM"), ("*3/*17", "IM"),
   ("*2/*2", "PM"), ("*2/*3", "PM"), ("*3/*3", "PM")]

/-- `CYP2D6_PHENOTYPE_MAP`: diplotype → phenotype. -/
def CYP2D6_PHENOTYPE_MAP : List (String × String) :=
  [("*1/*1", "NM"), ("*1/*2", "NM"), ("*2/*2", "NM"),
   ("*1/*4", "IM"), ("*2/*4", "IM"), ("*1/*5", "IM"),
   ("*4/*4", "PM"), ("*4/*5", "PM"), ("*5/*5", "PM"),
   ("*1/*2xN", "UM"), ("*2xN/*2xN", "UM"), ("*1/*1xN", "UM")]

/-- `CYP2C9_PHENOTYPE_MAP`: diplotype → phenotype. -/
def CYP2C9_PHENOTYPE_MAP : List (String × String) :=
  [("*1/*1", "NM"), ("*1/*2", "IM"), ("*1/*3", "IM"),
   ("*2/*2", "IM"), ("*2/*3", "PM"), ("*3/*3", "PM")]

/-- `SLCO1B1_PHENOTYPE_MAP`: diplotype → phenotype. -/
def SLCO1B1_PHENOTYPE_MAP : List (String × String) :=
  [("*1/*1", "NM"), ("*1a/*1a", "NM"), ("*1a/*1b", "NM"), ("*1b/*1b", "NM"),
   ("*1B/*1B", "NM"), ("*1/*1B", "NM"),
   ("*1/*5", "IM"), ("*1a/*5", "IM"), ("*1b/*5", "IM"), ("*1B/*5", "IM"),
   ("*1a/*15", "IM"), ("*1b/*15", "IM"), ("*1B/*15", "IM"),
   ("*5/*5", "PM"), ("*15/*15", "PM"), ("*5/*15", "PM")]

/-- `TPMT_PHENOTYPE_MAP`: diplotype → phenotype. -/
def TPMT_PHENOTYPE_MAP : List (String × String) :=
  [("*1/*1", "NM"), ("*1/*2", "IM"), ("*1/*3A", "IM"), ("*1/*3B", "IM"),
   ("*1/*3C", "IM"), ("*2/*2", "PM"), ("*3A/*3A", "PM"), ("*3B/*3B", "PM"),
   ("*3C/*3C", "PM"), ("*2/*3A", "PM"), ("*3B/*3C", "PM")]

/-- `DPYD_PHENOTYPE_MAP`: diplotype → phenotype. -/
def DPYD_PHENOTYPE_MAP : List (String × String) :=
  [("*1/*1", "NM"), ("Normal/Normal", "NM"), ("*1/*2A", "PM"), ("*2A/*2A", "PM"),
   ("*1/*5", "IM"), ("*5/*5", "PM"), ("*2A/*5", "PM"), ("*1/*13", "IM"),
   ("*1/*rs67376798", "IM"), ("Decreased/Normal", "IM"),
   ("Decreased/Decreased", "PM"), ("NoFunction/Normal", "PM")]

/-- `GENE_PHENOTYPE_MAPS`: gene symbol → its diplotype table. -/
def GENE_PHENOTYPE_MAPS : List (String × List (String × String)) :=
  [("CYP2C19", CYP2C19_PHENOTYPE_MAP),
   ("CYP2D6", CYP2D6_PHENOTYPE_MAP),
   ("CYP2C9", CYP2C9_PHENOTYPE_MAP),
   ("SLCO1B1", SLCO1B1_PHENOTYPE_MAP),
   ("TPMT", TPMT_PHENOTYPE_MAP),
   ("DPYD", DPYD_PHENOTYPE_MAP)]

/-- `calculateSLCO1B1Phenotype`: activity-score classification, `none` when either
allele has no known score. -/
def calculateSLCO1B1Phenotype (allele1 allele2 : String) : Option String :=
  match List.lookup allele1 SLCO1B1_ALLELE_FUNCTION,
        List.lookup allele2 SLCO1B1_ALLELE_FUNCTION with
  | some score1, some score2 =>
    let total := score1 + score2
    some (if 2 ≤ total then "NM" else if 1 ≤ total then "IM" else "PM")
  | _, _ => none

/-- `calculateDPYDPhenotype`: activity-score classification, `none` when either
allele has no known score. -/
def calculateDPYDPhenotype (allele1 allele2 : String) : Option String :=
  match List.lookup allele1 DPYD_ALLELE_FUNCTION,
        List.lookup allele2 DPYD_ALLELE_FUNCTION with
  | some score1, some score2 =>
    let total := score1 + score2
    some (if 2 ≤ total then "NM" else if 1 ≤ total then "IM" else "PM")
  | _, _ => none

/-- The numeric part of an allele label:
`parseInt(a.replace(/[^0-9]/g, '')) || 0` — the value of the digit characters,
0 when there are none. -/
def alleleNum (s : String) : Nat :=
  (s.data.filter Char.isDigit).foldl (fun n c => n * 10 + (c.toNat - 48)) 0

/-- The allele comparator used by every `.sort` call in the phenotype mapper:
numeric part ascending, ties broken by `localeCompare`. -/
def cmpAllele (a b : String) : Ordering :=
  match natCmp (alleleNum a) (alleleNum b) with
  | .eq => lcmp a.data b.data
  | o => o

/-- JS `[a, b].sort(cmpAllele)`: swap exactly when the comparator is positive. -/
def jsSortPair (a b : String) : String × String :=
  match cmpAllele a b with
  | .gt => (b, a)
  | _ => (a, b)

/-- The two sides of a sorted pair joined with `/`. -/
def joinSorted (a b : String) : String :=
  (jsSortPair a b).1 ++ "/" ++ (jsSortPair a b).2

/-- Insert into a list sorted by `cmpAllele` (before the first element the new one
does not exceed). -/
def insertAllele (x : String) : List String → List String
  | [] => [x]
  | y :: ys =>
    match cmpAllele x y with
    | .gt => y :: insertAllele x ys
    | _ => x :: y :: ys

/-- `.sort` with the allele comparator on a whole list (insertion sort; the
comparator is a total order on the distinct keys it is applied to, so any
comparison sort produces this order). -/
def sortAlleles : List String → List String
  | [] => []
  | x :: xs => insertAllele x (sortAlleles xs)

/-- `Object.keys` of the occurrence-count object: the distinct alleles in
first-occurrence order. -/
def dedupFirst (l : List String) : List String :=
  l.foldl (fun acc x => if acc.contains x then acc else acc ++ [x]) []

/-- `normalizeDiplotype`: `Unknown` for missing/`Unknown` input, the input itself
when it does not split into exactly two `/`-separated parts, otherwise the two
trimmed parts sorted by the allele comparator and re-joined. -/
def normalizeDiplotype (diplotype : String) : String :=
  if diplotype = "" ∨ diplotype = "Unknown" then "Unknown"
  else
    match (splitChar '/' diplotype).map trimStr with
    | [a, b] => joinSorted a b
    | _ => diplotype

/-- A variant record as built by `parseVCF`. -/
structure Variant where
  chrom : String
  pos : String
  id : String
  ref : String
  alt : String
  gene_symbol : String
  rsid : String
  star_allele : String
deriving DecidableEq, Repr

/-- The star-allele filter in `determineDiplotype`:
`.filter(s => s && s.startsWith('*'))`. -/
def starFilter (s : String) : Bool := (s != "") && strStarts "*" s

/-- `determineDiplotype`: reduce a gene's variant list to a diplotype string.
The `[]` case of the sorted unique alleles is unreachable (it is the sorted
deduplication of a non-empty list). -/
def determineDiplotype (variants : List Variant) : String :=
  if variants = [] then "*1/*1"
  else
    if (variants.map Variant.star_allele).filter starFilter = [] then "*1/*1"
    else
      match sortAlleles (dedupFirst ((variants.map Variant.star_allele).filter starFilter)) with
      | [allele] =>
        if 2 ≤ ((variants.map Variant.star_allele).filter starFilter).count allele
        then joinSorted allele allele
        else if allele = "*1" then joinSorted "*1" "*1"
        else joinSorted "*1" allele
      | allele1 :: allele2 :: _ => joinSorted allele1 allele2
      | [] => "*1/*1"

/-- The body of `determinePhenotypeByGene` after input validation and
normalization: direct table lookup, reversed-order lookup, then the
activity-score fallback guarded to `SLCO1B1`/`DPYD`, else `Unknown`. -/
def phenotypeFromTables (normalizedGene normalizedDiplotype : String) : String :=
  match List.lookup normalizedGene GENE_PHENOTYPE_MAPS with
  | none => "Unknown"
  | some phenotypeMap =>
    match List.lookup normalizedDiplotype phenotypeMap with
    | some phenotype => phenotype
    | none =>
      match splitChar '/' normalizedDiplotype with
      | [allele1, allele2] =>
        match List.lookup (allele2 ++ "/" ++ allele1) phenotypeMap with
        | some reversePhenotype => reversePhenotype
        | none =>
          match (if normalizedGene = "SLCO1B1"
                 then calculateSLCO1B1Phenotype allele1 allele2 else none) with
          | some activityPhenotype => activityPhenotype
          | none =>
            match (if normalizedGene = "DPYD"
                   then calculateDPYDPhenotype allele1 allele2 else none) with
            | some activityPhenotype => activityPhenotype
            | none => "Unknown"
      | _ => "Unknown"

/-- `determinePhenotypeByGene`: gene-scoped CPIC classification. -/
def determinePhenotypeByGene (gene diplotype : String) : String :=
  if gene = "" ∨ diplotype = "" ∨ diplotype = "Unknown" then "Unknown"
  else phenotypeFromTables (trimStr (toUpperStr gene)) (normalizeDiplotype diplotype)

/-- The loop of the legacy `determinePhenotype`: try each gene's table in
`GENE_PHENOTYPE_MAPS` order and return the first hit. -/
def legacyScan (normalizedDiplotype : String) :
    List (String × List (String × String)) → String
  | [] => "Unknown"
  | (_, phenotypeMap) :: rest =>
    match List.lookup normalizedDiplotype phenotypeMap with
    | some phenotype => phenotype
    | none => legacyScan normalizedDiplotype rest

/-- Legacy gene-agnostic `determinePhenotype` (deprecated in the source). -/
def determinePhenotype (diplotype : String) : String :=
  if diplotype = "" ∨ diplotype = "Unknown" then "Unknown"
  else legacyScan (normalizeDiplotype diplotype) GENE_PHENOTYPE_MAPS

/-- The reversed allele order of a two-part diplotype string (used to state the
reversed-order lookup of `determinePhenotypeByGene`). -/
def reverseDiplotype (d : String) : String :=
  match splitChar '/' d with
  | [a, b] => b ++ "/" ++ a
  | _ => d

/-! ## Risk engine (`backend/services/riskEngine.js`) -/

/-- `DRUG_GENE_MAP`: supported drug → its primary gene. -/
def DRUG_GENE_MAP : List (String × String) :=
  [("CODEINE", "CYP2D6"), ("CLOPIDOGREL", "CYP2C19"), ("WARFARIN", "CYP2C9"),
   ("SIMVASTATIN", "SLCO1B1"), ("AZATHIOPRINE", "TPMT"), ("FLUOROURACIL", "DPYD"),
   ("5-FLUOROURACIL", "DPYD"), ("5-FU", "DPYD")]

/-- `SUPPORTED_DRUGS = Object.keys(DRUG_GENE_MAP)`. -/
def SUPPORTED_DRUGS : List String := DRUG_GENE_MAP.map Prod.fst

/-- One entry of a per-drug risk table. -/
structure RiskEntry where
  risk : String
  severity : String
  confidence : ℚ
deriving DecidableEq, Repr

/-- `CLOPIDOGREL_RISK` (CYP2C19). -/
def CLOPIDOGREL_RISK : List (String × RiskEntry) :=
  [("PM", ⟨"Ineffective", "high", mkRat 95 100⟩),
   ("IM", ⟨"Adjust Dosage", "moderate", mkRat 90 100⟩),
   ("NM", ⟨"Safe", "none", mkRat 95 100⟩),
   ("RM", ⟨"Safe", "none", mkRat 90 100⟩),
   ("UM", ⟨"Safe", "none", mkRat 90 100⟩),
   ("Unknown", ⟨"Unknown", "low", mkRat 50 100⟩)]

/-- `CODEINE_RISK` (CYP2D6). -/
def CODEINE_RISK : List (String × RiskEntry) :=
  [("PM", ⟨"Ineffective", "high", mkRat 95 100⟩),
   ("IM", ⟨"Adjust Dosage", "moderate", mkRat 90 100⟩),
   ("NM", ⟨"Safe", "none", mkRat 95 100⟩),
   ("RM", ⟨"Adjust Dosage", "moderate", mkRat 85 100⟩),
   ("UM", ⟨"Toxic", "critical", mkRat 95 100⟩),
   ("Unknown", ⟨"Unknown", "low", mkRat 50 100⟩)]

/-- `WARFARIN_RISK` (CYP2C9). -/
def WARFARIN_RISK : List (String × RiskEntry) :=
  [("PM", ⟨"Adjust Dosage", "moderate", mkRat 95 100⟩),
   ("IM", ⟨"Adjust Dosage", "moderate", mkRat 90 100⟩),
   ("NM", ⟨"Safe", "none", mkRat 95 100⟩),
   ("RM", ⟨"Safe", "none", mkRat 85 100⟩),
   ("UM", ⟨"Safe", "none", mkRat 85 100⟩),
   ("Unknown", ⟨"Unknown", "low", mkRat 50 100⟩)]

/-- `SIMVASTATIN_RISK` (SLCO1B1). -/
def SIMVASTATIN_RISK : List (String × RiskEntry) :=
  [("PM", ⟨"Toxic", "critical", mkRat 95 100⟩),
   ("IM", ⟨"Adjust Dosage", "moderate", mkRat 90 100⟩),
   ("NM", ⟨"Safe", "none", mkRat 95 100⟩),
   ("RM", ⟨"Safe", "none", mkRat 85 100⟩),
   ("UM", ⟨"Safe", "none", mkRat 85 100⟩),
   ("Unknown", ⟨"Unknown", "low", mkRat 50 100⟩)]

/-- `AZATHIOPRINE_RISK` (TPMT). -/
def AZATHIOPRINE_RISK : List (String × RiskEntry) :=
  [("PM", ⟨"Toxic", "critical", mkRat 95 100⟩),
   ("IM", ⟨"Adjust Dosage", "moderate", mkRat 90 100⟩),
   ("NM", ⟨"Safe", "none", mkRat 95 100⟩),
   ("RM", ⟨"Safe", "none", mkRat 85 100⟩),
   ("UM", ⟨"Safe", "none", mkRat 85 100⟩),
   ("Unknown", ⟨"Unknown", "low", mkRat 50 100⟩)]

/-- `FLUOROURACIL_RISK` (DPYD). -/
def FLUOROURACIL_RISK : List (String × RiskEntry) :=
  [("PM", ⟨"Toxic", "critical", mkRat 95 100⟩),
   ("IM", ⟨"Adjust Dosage", "moderate", mkRat 90 100⟩),
   ("NM", ⟨"Safe", "none", mkRat 95 100⟩),
   ("RM", ⟨"Safe", "none", mkRat 85 100⟩),
   ("UM", ⟨"Safe", "none", mkRat 85 100⟩),
   ("Unknown", ⟨"Unknown", "low", mkRat 50 100⟩)]

/-- `RISK_RULES`: drug name → its risk table. -/
def RISK_RULES : List (String × List (String × RiskEntry)) :=
  [("CODEINE", CODEINE_RISK), ("CLOPIDOGREL", CLOPIDOGREL_RISK),
   ("WARFARIN", WARFARIN_RISK), ("SIMVASTATIN", SIMVASTATIN_RISK),
   ("AZATHIOPRINE", AZATHIOPRINE_RISK), ("FLUOROURACIL", FLUOROURACIL_RISK),
   ("5-FLUOROURACIL", FLUOROURACIL_RISK), ("5-FU", FLUOROURACIL_RISK)]

/-- `SEVERITY_MAP`: canonical risk label → severity. -/
def SEVERITY_MAP : List (String × String) :=
  [("Safe", "none"), ("Adjust Dosage", "moderate"), ("Ineffective", "high"),
   ("Toxic", "critical"), ("Unknown", "low")]

/-- The record returned by `calculateRisk`. -/
structure RiskAssessment where
  risk_label : String
  confidence_score : ℚ
  severity : String
deriving DecidableEq, Repr

/-- The part of `calculateRisk` that runs once the drug's rule table is found:
unknown/missing-phenotype fallback, phenotype-without-entry fallback, else the
table entry with its severity recomputed from `SEVERITY_MAP`
(`SEVERITY_MAP[riskData.risk] || riskData.severity`). -/
def riskFromTable (drugRules : List (String × RiskEntry)) (phenotype : String) :
    RiskAssessment :=
  if phenotype = "" ∨ phenotype = "Unknown" then ⟨"Unknown", mkRat 50 100, "low"⟩
  else
    match List.lookup phenotype drugRules with
    | none => ⟨"Unknown", mkRat 50 100, "low"⟩
    | some riskData =>
      ⟨riskData.risk, riskData.confidence,
       jsOrOpt (List.lookup riskData.risk SEVERITY_MAP) riskData.severity⟩

/-- `calculateRisk(drug, phenotype, hasVariants)`: the unknown-drug fallback,
else `riskFromTable` on the drug's rule table. `hasVariants` is accepted and
unused, exactly as in the source. -/
def calculateRisk (drug phenotype : String) (hasVariants : Bool) : RiskAssessment :=
  match List.lookup (trimStr (toUpperStr drug)) RISK_RULES with
  | none => ⟨"Unknown", 0, "low"⟩
  | some drugRules => riskFromTable drugRules phenotype

/-! ## VCF parser (`backend/parser/vcfParser.js`) -/

/-- `TARGET_GENES`: the gene allow-list. -/
def TARGET_GENES : List String :=
  ["CYP2D6", "CYP2C19", "CYP2C9", "SLCO1B1", "TPMT", "DPYD"]

/-- `parseINFO`: semicolon-separated `key=value` pairs into a lowercase-keyed
dictionary; pairs with a missing key or value are dropped, later pairs overwrite
earlier ones. -/
def parseINFO (info : String) : List (String × String) :=
  if info = "" ∨ info = "." then []
  else
    (splitChar ';' info).foldl
      (fun result pair =>
        let kv := splitChar '=' pair
        let key := kv.headD ""
        let value := kv.getD 1 ""
        if key ≠ "" ∧ 2 ≤ kv.length ∧ value ≠ ""
        then setKey result (toLowerStr key) value
        else result)
      []

/-- The mutable loop state of `parseVCF`. -/
structure ParseState where
  headerFound : Bool
  columnIndices : List (String × Nat)
  variants : List Variant
  geneVariants : List (String × List Variant)
deriving DecidableEq, Repr

/-- The `#CHROM` branch: record each uppercased header name's column index into
the running `columnIndices` object. -/
def buildColumnIndices (init0 : List (String × Nat)) (line : String) :
    List (String × Nat) :=
  (splitChar '\t' (strSub1 line)).enum.foldl
    (fun acc p => setKey acc (toUpperStr p.2) p.1) init0

/-- Append a variant to its gene's group (`geneVariants[gene].push(variant)`,
creating the group on first use). -/
def appendGeneVariant (gv : List (String × List Variant)) (v : Variant) :
    List (String × List Variant) :=
  match gv with
  | [] => [(v.gene_symbol, [v])]
  | (k, vs) :: rest =>
    if k = v.gene_symbol then (k, vs ++ [v]) :: rest
    else (k, vs) :: appendGeneVariant rest v

/-- The Variant object literal built for a qualifying row: each positional field
is `fields[columnIndices[NAME]] || default`, the reference-SNP id is the
`rs`/`rsid` annotation or the row's ID field (first truthy wins), the star
allele is the `star` annotation or the empty string. -/
def makeVariant (columnIndices : List (String × Nat)) (fields : List String)
    (parsedInfo : List (String × String)) (gene : String) : Variant :=
  { chrom := jsOrS (fieldAt fields (List.lookup "CHROM" columnIndices)) ""
    pos := jsOrS (fieldAt fields (List.lookup "POS" columnIndices)) ""
    id := jsOrS (fieldAt fields (List.lookup "ID" columnIndices)) "."
    ref := jsOrS (fieldAt fields (List.lookup "REF" columnIndices)) ""
    alt := jsOrS (fieldAt fields (List.lookup "ALT" columnIndices)) ""
    gene_symbol := toUpperStr gene
    rsid := jsOrOpt (List.lookup "rs" parsedInfo)
              (jsOrOpt (List.lookup "rsid" parsedInfo)
                (jsOrS (fieldAt fields (List.lookup "ID" columnIndices)) ""))
    star_allele := jsOrOpt (List.lookup "star" parsedInfo) "" }

/-- One iteration of the `parseVCF` line loop. -/
def processLine (st : ParseState) (line : String) : ParseState :=
  if strStarts "##" line then st
  else if strStarts "#CHROM" line then
    { st with headerFound := true,
              columnIndices := buildColumnIndices st.columnIndices line }
  else if trimStr line = "" then st
  else if st.headerFound then
    match List.lookup "INFO" st.columnIndices with
    | none => st
    | some infoIndex =>
      if (splitChar '\t' line).length ≤ infoIndex then st
      else
        match List.lookup "gene"
                (parseINFO ((splitChar '\t' line).getD infoIndex "")) with
        | none => st
        | some gene =>
          if gene ≠ "" ∧ TARGET_GENES.contains (toUpperStr gene) then
            let v : Variant :=
              makeVariant st.columnIndices (splitChar '\t' line)
                (parseINFO ((splitChar '\t' line).getD infoIndex "")) gene
            { st with variants := st.variants ++ [v],
                      geneVariants := appendGeneVariant st.geneVariants v }
          else st
  else st

/-- The record returned by `parseVCF`. -/
structure ParseResult where
  success : Bool
  totalVariants : Nat
  variants : List Variant
  geneVariants : List (String × List Variant)
  targetGenes : List String
deriving DecidableEq, Repr

/-- `parseVCF`: split into lines, run the line loop, package the final state. -/
def parseVCF (vcfContent : String) : ParseResult :=
  let st := (splitChar '\n' vcfContent).foldl processLine ⟨false, [], [], []⟩
  ⟨st.headerFound, st.variants.length, st.variants, st.geneVariants, TARGET_GENES⟩

/-! ## Helper lemmas -/

theorem lookup_mem_values {α β : Type} [BEq α] {l : List (α × β)} {k : α} {v : β}
    (h : List.lookup k l = some v) : v ∈ l.map Prod.snd := by
  induction l with
  | nil => simp at h
  | cons p rest ih =>
    obtain ⟨k1, v1⟩ := p
    rw [List.lookup_cons] at h
    cases hk : k == k1 with
    | true =>
      rw [hk] at h
      simp at h
      subst h
      simp
    | false =>
      rw [hk] at h
      exact List.mem_cons_of_mem _ (ih h)

theorem lookup_eq_none_of {α β : Type} [BEq α] {l : List (α × β)} {k : α}
    (h : ∀ p ∈ l, (k == p.1) = false) : List.lookup k l = none := by
  induction l with
  | nil => rfl
  | cons p rest ih =>
    obtain ⟨k1, v1⟩ := p
    rw [List.lookup_cons]
    have h1 : (k == k1) = false := h (k1, v1) (by simp)
    rw [h1]
    exact ih fun q hq => h q (List.mem_cons_of_mem _ hq)

theorem lookup_isSome_of_mem {β : Type} {l : List (String × β)} {k : String}
    (h : k ∈ l.map Prod.fst) : ∃ v, List.lookup k l = some v := by
  induction l with
  | nil => simp at h
  | cons p rest ih =>
    obtain ⟨k1, v1⟩ := p
    by_cases hk : k = k1
    · refine ⟨v1, ?_⟩
      rw [List.lookup_cons]
      have hbeq : (k == k1) = true := by simp [hk]
      rw [hbeq]
    · rw [List.lookup_cons]
      have hbeq : (k == k1) = false := by simp [hk]
      rw [hbeq]
      show ∃ v, List.lookup k rest = some v
      apply ih
      simp only [List.map_cons, List.mem_cons] at h
      rcases h with h | h
      · exact absurd h hk
      · exact h

theorem natCmp_self (a : Nat) : natCmp a a = Ordering.eq := by
  simp [natCmp]

theorem natCmp_eq_iff (a b : Nat) : natCmp a b = Ordering.eq ↔ a = b := by
  rcases Nat.lt_trichotomy a b with h | h | h
  · have h1 : ¬ b < a := Nat.lt_asymm h
    simp [natCmp, h, h1]
    omega
  · subst h
    simp [natCmp]
  · have h1 : ¬ a < b := Nat.lt_asymm h
    simp [natCmp, h, h1]
    omega

theorem natCmp_gt_iff_lt (a b : Nat) :
    natCmp a b = Ordering.gt ↔ natCmp b a = Ordering.lt := by
  rcases Nat.lt_trichotomy a b with h | h | h
  · have h1 : ¬ b < a := Nat.lt_asymm h
    simp [natCmp, h, h1]
  · subst h
    simp [natCmp]
  · have h1 : ¬ a < b := Nat.lt_asymm h
    simp [natCmp, h, h1]

theorem char_toNat_inj {a b : Char} (h : a.toNat = b.toNat) : a = b := by
  rw [← Char.ofNat_toNat a, ← Char.ofNat_toNat b, h]

theorem lcmp_eq_iff : ∀ (x y : List Char), lcmp x y = Ordering.eq ↔ x = y := by
  intro x
  induction x with
  | nil => intro y; cases y <;> simp [lcmp]
  | cons a as ih =>
    intro y
    cases y with
    | nil => simp [lcmp]
    | cons b bs =>
      show (match natCmp a.toNat b.toNat with
            | .eq => lcmp as bs
            | o => o) = Ordering.eq ↔ a :: as = b :: bs
      cases hc : natCmp a.toNat b.toNat with
      | lt =>
        show Ordering.lt = Ordering.eq ↔ a :: as = b :: bs
        constructor
        · intro hcontra; cases hcontra
        · intro he
          rw [List.cons.injEq] at he
          rw [he.1, natCmp_self] at hc
          cases hc
      | eq =>
        show lcmp as bs = Ordering.eq ↔ a :: as = b :: bs
        have hab : a = b := char_toNat_inj ((natCmp_eq_iff _ _).mp hc)
        subst hab
        rw [ih bs]
        simp
      | gt =>
        show Ordering.gt = Ordering.eq ↔ a :: as = b :: bs
        constructor
        · intro hcontra; cases hcontra
        · intro he
          rw [List.cons.injEq] at he
          rw [he.1, natCmp_self] at hc
          cases hc

theorem lcmp_gt_iff_lt : ∀ (x y : List Char),
    lcmp x y = Ordering.gt ↔ lcmp y x = Ordering.lt := by
  intro x
  induction x with
  | nil => intro y; cases y <;> simp [lcmp]
  | cons a as ih =>
    intro y
    cases y with
    | nil => simp [lcmp]
    | cons b bs =>
      show (match natCmp a.toNat b.toNat with
            | .eq => lcmp as bs
            | o => o) = Ordering.gt ↔
           (match natCmp b.toNat a.toNat with
            | .eq => lcmp bs as
            | o => o) = Ordering.lt
      cases hc : natCmp a.toNat b.toNat with
      | lt =>
        have hba : natCmp b.toNat a.toNat = Ordering.gt := (natCmp_gt_iff_lt _ _).mpr hc
        rw [hba]
        show Ordering.lt = Ordering.gt ↔ Ordering.gt = Ordering.lt
        simp
      | eq =>
        have hba : natCmp b.toNat a.toNat = Ordering.eq := by
          rw [natCmp_eq_iff] at hc ⊢
          exact hc.symm
        rw [hba]
        exact ih bs
      | gt =>
        have hba : natCmp b.toNat a.toNat = Ordering.lt := (natCmp_gt_iff_lt _ _).mp hc
        rw [hba]
        show Ordering.gt = Ordering.gt ↔ Ordering.lt = Ordering.lt
        simp

theorem string_data_inj {a b : String} (h : a.data = b.data) : a = b := by
  cases a
  cases b
  exact congrArg String.mk h

theorem cmpAllele_eq_iff (a b : String) : cmpAllele a b = Ordering.eq ↔ a = b := by
  unfold cmpAllele
  cases hc : natCmp (alleleNum a) (alleleNum b) with
  | lt =>
    show Ordering.lt = Ordering.eq ↔ a = b
    constructor
    · intro hcontra; cases hcontra
    · intro he
      rw [he, natCmp_self] at hc
      cases hc
  | eq =>
    show lcmp a.data b.data = Ordering.eq ↔ a = b
    rw [lcmp_eq_iff]
    constructor
    · exact string_data_inj
    · intro he; rw [he]
  | gt =>
    show Ordering.gt = Ordering.eq ↔ a = b
    constructor
    · intro hcontra; cases hcontra
    · intro he
      rw [he, natCmp_self] at hc
      cases hc

theorem cmpAllele_gt_iff_lt (a b : String) :
    cmpAllele a b = Ordering.gt ↔ cmpAllele b a = Ordering.lt := by
  unfold cmpAllele
  cases hc : natCmp (alleleNum a) (alleleNum b) with
  | lt =>
    have hba : natCmp (alleleNum b) (alleleNum a) = Ordering.gt :=
      (natCmp_gt_iff_lt _ _).mpr hc
    rw [hba]
    show Ordering.lt = Ordering.gt ↔ Ordering.gt = Ordering.lt
    simp
  | eq =>
    have hba : natCmp (alleleNum b) (alleleNum a) = Ordering.eq := by
      rw [natCmp_eq_iff] at hc ⊢
      exact hc.symm
    rw [hba]
    exact lcmp_gt_iff_lt _ _
  | gt =>
    have hba : natCmp (alleleNum b) (alleleNum a) = Ordering.lt :=
      (natCmp_gt_iff_lt _ _).mp hc
    rw [hba]
    show Ordering.gt = Ordering.gt ↔ Ordering.lt = Ordering.lt
    simp

/-- The joined sorted pair is symmetric in its two inputs: the comparator is a
total order, so JS's two-element sort canonicalizes the unordered pair. -/
theorem joinSorted_comm (a b : String) : joinSorted a b = joinSorted b a := by
  unfold joinSorted jsSortPair
  cases hc : cmpAllele a b with
  | lt =>
    have hba : cmpAllele b a = Ordering.gt := (cmpAllele_gt_iff_lt b a).mpr hc
    rw [hba]
  | eq =>
    have hab : a = b := (cmpAllele_eq_iff a b).mp hc
    subst hab
    rw [(cmpAllele_eq_iff a a).mpr rfl]
  | gt =>
    have hba : cmpAllele b a = Ordering.lt := (cmpAllele_gt_iff_lt a b).mp hc
    rw [hba]

theorem string_data_append (a b : String) : (a ++ b).data = a.data ++ b.data := rfl

theorem splitCL_ne_nil (c : Char) : ∀ (l : List Char), splitCL c l ≠ [] := by
  intro l
  induction l with
  | nil => simp [splitCL]
  | cons x xs ih =>
    show (match splitCL c xs with
          | [] => [[]]
          | h :: t => if x = c then [] :: h :: t else (x :: h) :: t) ≠ []
    cases hs : splitCL c xs with
    | nil => simp
    | cons h t =>
      by_cases hx : x = c
      · simp [hx]
      · simp [hx]

theorem splitCL_of_not_mem {c : Char} : ∀ {l : List Char}, c ∉ l → splitCL c l = [l] := by
  intro l
  induction l with
  | nil => intro _; rfl
  | cons x xs ih =>
    intro h
    have hx : x ≠ c := fun he => h (he ▸ List.mem_cons_self x xs)
    have hxs : c ∉ xs := fun hm => h (List.mem_cons_of_mem x hm)
    show (match splitCL c xs with
          | [] => [[]]
          | h :: t => if x = c then [] :: h :: t else (x :: h) :: t) = [x :: xs]
    rw [ih hxs]
    simp [hx]

theorem splitCL_append {c : Char} : ∀ {a : List Char} (b : List Char), c ∉ a →
    splitCL c (a ++ c :: b) = a :: splitCL c b := by
  intro a
  induction a with
  | nil =>
    intro b _
    show (match splitCL c b with
          | [] => [[]]
          | h :: t => if c = c then [] :: h :: t else (c :: h) :: t) = [] :: splitCL c b
    cases hs : splitCL c b with
    | nil => exact absurd hs (splitCL_ne_nil c b)
    | cons h t => simp
  | cons x xs ih =>
    intro b h
    have hx : x ≠ c := fun he => h (he ▸ List.mem_cons_self x xs)
    have hxs : c ∉ xs := fun hm => h (List.mem_cons_of_mem x hm)
    show (match splitCL c (xs ++ c :: b) with
          | [] => [[]]
          | h :: t => if x = c then [] :: h :: t else (x :: h) :: t) =
         (x :: xs) :: splitCL c b
    rw [ih b hxs]
    simp [hx]

theorem splitCL_length (c : Char) : ∀ (l : List Char),
    (splitCL c l).length = l.count c + 1 := by
  intro l
  induction l with
  | nil => rfl
  | cons x xs ih =>
    show (match splitCL c xs with
          | [] => [[]]
          | h :: t => if x = c then [] :: h :: t else (x :: h) :: t).length =
         (x :: xs).count c + 1
    cases hs : splitCL c xs with
    | nil => exact absurd hs (splitCL_ne_nil c xs)
    | cons h t =>
      rw [hs] at ih
      show (if x = c then [] :: h :: t else (x :: h) :: t).length = (x :: xs).count c + 1
      by_cases hx : x = c
      · rw [if_pos hx, hx, List.count_cons_self]
        simp only [List.length_cons] at ih ⊢
        omega
      · rw [if_neg hx, List.count_cons_of_ne (fun hcx => hx hcx.symm)]
        simp only [List.length_cons] at ih ⊢
        omega

theorem mem_trimCL {x : Char} {l : List Char} (h : x ∈ trimCL l) : x ∈ l := by
  unfold trimCL at h
  rw [List.mem_reverse] at h
  have h1 := (List.dropWhile_sublist _).subset h
  rw [List.mem_reverse] at h1
  exact (List.dropWhile_sublist _).subset h1

theorem pair_data (A B : String) :
    (A ++ "/" ++ B).data = A.data ++ '/' :: B.data := by
  rw [string_data_append, string_data_append]
  simp

theorem slash_mem_pair (A B : String) : '/' ∈ (A ++ "/" ++ B).data := by
  rw [pair_data]
  simp

theorem slashed_not_trivial {s : String} (h : '/' ∈ s.data) :
    ¬(s = "" ∨ s = "Unknown") := by
  rintro (rfl | rfl)
  · simp at h
  · exact absurd h (by decide)

theorem splitChar_pair {A B : String} (hA : '/' ∉ A.data) (hB : '/' ∉ B.data) :
    splitChar '/' (A ++ "/" ++ B) = [A, B] := by
  unfold splitChar
  rw [pair_data, splitCL_append B.data hA, splitCL_of_not_mem hB]
  rfl

/-- When neither side contains a slash, normalization of `A/B` is the sorted
join of the trimmed sides. -/
theorem normalizeDiplotype_pair {A B : String} (hA : '/' ∉ A.data)
    (hB : '/' ∉ B.data) :
    normalizeDiplotype (A ++ "/" ++ B) = joinSorted (trimStr A) (trimStr B) := by
  unfold normalizeDiplotype
  rw [if_neg (slashed_not_trivial (slash_mem_pair A B)), splitChar_pair hA hB]
  rfl

theorem count_slash_pair {A B : String} (h : '/' ∈ A.data ∨ '/' ∈ B.data) :
    2 ≤ List.count '/' (A ++ "/" ++ B).data := by
  rw [pair_data, List.count_append, List.count_cons_self]
  rcases h with h | h
  · have := List.count_pos_iff.mpr h
    omega
  · have := List.count_pos_iff.mpr h
    omega

theorem by_length_three {α : Type} {l : List α} (h : 3 ≤ l.length) :
    ∃ x y z t, l = x :: y :: z :: t := by
  match l, h with
  | x :: y :: z :: t, _ => exact ⟨x, y, z, t, rfl⟩

/-- A diplotype string containing two or more slashes does not split into two
parts, so normalization returns it unchanged. -/
theorem normalizeDiplotype_id_of_manySlash {s : String}
    (hs : 2 ≤ List.count '/' s.data) (hne : ¬(s = "" ∨ s = "Unknown")) :
    normalizeDiplotype s = s := by
  unfold normalizeDiplotype
  rw [if_neg hne]
  have hlen : 3 ≤ ((splitChar '/' s).map trimStr).length := by
    rw [List.length_map]
    unfold splitChar
    rw [List.length_map, splitCL_length]
    omega
  obtain ⟨x, y, z, t, hl⟩ := by_length_three hlen
  rw [hl]

/-- Every key of every per-gene phenotype table contains exactly one slash. -/
theorem gene_table_keys_one_slash :
    ∀ m ∈ GENE_PHENOTYPE_MAPS.map Prod.snd, ∀ p ∈ m,
      List.count '/' p.1.data = 1 := by
  decide

/-- A diplotype string containing two or more slashes matches no table key and
does not split into two parts, so the table stage classifies it `Unknown`
for every gene. -/
theorem phenotypeFromTables_manySlash (g : String) {s : String}
    (hs : 2 ≤ List.count '/' s.data) :
    phenotypeFromTables g s = "Unknown" := by
  unfold phenotypeFromTables
  cases hg : List.lookup g GENE_PHENOTYPE_MAPS with
  | none => rfl
  | some m =>
    have hkeys := gene_table_keys_one_slash m (lookup_mem_values hg)
    have hnone : List.lookup s m = none := by
      apply lookup_eq_none_of
      intro p hp
      have h1 := hkeys p hp
      have hne : s ≠ p.1 := by
        intro he
        rw [← he] at h1
        omega
      simp [hne]
    have hlen : 3 ≤ (splitChar '/' s).length := by
      unfold splitChar
      rw [List.length_map, splitCL_length]
      omega
    obtain ⟨x, y, z, t, hl⟩ := by_length_three hlen
    simp only [hnone, hl]

/-- For a gene that is neither `SLCO1B1` nor `DPYD`, the table stage returns a
direct table entry, a reversed-order table entry, or `Unknown` — the
activity-score fallback is never taken. -/
theorem phenotypeFromTables_no_activity (ng : String) (h1 : ng ≠ "SLCO1B1")
    (h2 : ng ≠ "DPYD") (nd : String) :
    phenotypeFromTables ng nd = "Unknown"
    ∨ (List.lookup ng GENE_PHENOTYPE_MAPS).bind (List.lookup nd) =
        some (phenotypeFromTables ng nd)
    ∨ (List.lookup ng GENE_PHENOTYPE_MAPS).bind
        (List.lookup (reverseDiplotype nd)) =
        some (phenotypeFromTables ng nd) := by
  unfold phenotypeFromTables
  cases hg : List.lookup ng GENE_PHENOTYPE_MAPS with
  | none => left; rfl
  | some m =>
    cases hd : List.lookup nd m with
    | some p =>
      right; left
      simp [hd]
    | none =>
      cases hsp : splitChar '/' nd with
      | nil => left; simp [hd, hsp]
      | cons x xs =>
        cases xs with
        | nil => left; simp [hd, hsp]
        | cons y ys =>
          cases ys with
          | cons z zs => left; simp [hd, hsp]
          | nil =>
            have hrev : reverseDiplotype nd = y ++ "/" ++ x := by
              unfold reverseDiplotype
              rw [hsp]
            cases hr : List.lookup (y ++ "/" ++ x) m with
            | some q =>
              right; right
              simp [hrev, hd, hsp, hr]
            | none =>
              left
              simp [hd, hsp, hr, if_neg h1, if_neg h2]

/-- C4: the Classifier is insensitive to allele operand order — classifying
`A/B` and `B/A` yields the same phenotype, for every gene and every pair of
labels. -/
theorem classifier_operand_order_insensitive (gene A B : String) :
    determinePhenotypeByGene gene (A ++ "/" ++ B) =
    determinePhenotypeByGene gene (B ++ "/" ++ A) := by
  have h1 := slashed_not_trivial (slash_mem_pair A B)
  have h2 := slashed_not_trivial (slash_mem_pair B A)
  unfold determinePhenotypeByGene
  by_cases hgene : gene = ""
  · rw [if_pos (Or.inl hgene), if_pos (Or.inl hgene)]
  · have hc1 : ¬(gene = "" ∨ A ++ "/" ++ B = "" ∨ A ++ "/" ++ B = "Unknown") := by
      rintro (h | h | h)
      · exact hgene h
      · exact h1 (Or.inl h)
      · exact h1 (Or.inr h)
    have hc2 : ¬(gene = "" ∨ B ++ "/" ++ A = "" ∨ B ++ "/" ++ A = "Unknown") := by
      rintro (h | h | h)
      · exact hgene h
      · exact h2 (Or.inl h)
      · exact h2 (Or.inr h)
    rw [if_neg hc1, if_neg hc2]
    by_cases hA : '/' ∈ A.data
    · rw [normalizeDiplotype_id_of_manySlash (count_slash_pair (Or.inl hA)) h1,
          normalizeDiplotype_id_of_manySlash (count_slash_pair (Or.inr hA)) h2,
          phenotypeFromTables_manySlash _ (count_slash_pair (Or.inl hA)),
          phenotypeFromTables_manySlash _ (count_slash_pair (Or.inr hA))]
    · by_cases hB : '/' ∈ B.data
      · rw [normalizeDiplotype_id_of_manySlash (count_slash_pair (Or.inr hB)) h1,
            normalizeDiplotype_id_of_manySlash (count_slash_pair (Or.inl hB)) h2,
            phenotypeFromTables_manySlash _ (count_slash_pair (Or.inr hB)),
            phenotypeFromTables_manySlash _ (count_slash_pair (Or.inl hB))]
      · rw [normalizeDiplotype_pair hA hB, normalizeDiplotype_pair hB hA,
            joinSorted_comm]

/-! ## Claim theorems -/

/-- C1: end-to-end pipeline on a CYP2C19 variant set with star alleles `*2`
(rs4244285) and `*17` (rs12248560): the Resolver returns diplotype `*2/*17`,
the Classifier maps (`CYP2C19`, `*2/*17`) to `IM` (not `RM`), and the Risk
Engine maps (`CLOPIDOGREL`, `IM`) to risk label `Adjust Dosage`, severity
`moderate`, confidence 0.90. -/
theorem pipeline_cyp2c19_star2_star17 :
    determineDiplotype
      [⟨"10", "94781859", "rs4244285", "G", "A", "CYP2C19", "rs4244285", "*2"⟩,
       ⟨"10", "94761900", "rs12248560", "C", "T", "CYP2C19", "rs12248560", "*17"⟩] =
      "*2/*17"
    ∧ determinePhenotypeByGene "CYP2C19" "*2/*17" = "IM"
    ∧ determinePhenotypeByGene "CYP2C19" "*2/*17" ≠ "RM"
    ∧ calculateRisk "CLOPIDOGREL" "IM" true =
        ⟨"Adjust Dosage", mkRat 90 100, "moderate"⟩ := by
  refine ⟨by decide, by decide, by decide, by decide⟩

/-- C2: for every drug string, phenotype string and `hasVariants` flag, the
severity of the `RiskAssessment` returned by `calculateRisk` is exactly the
canonical `SEVERITY_MAP` image of the returned risk label, never an
independently chosen value. -/
theorem severity_is_function_of_risk_label (drug phenotype : String)
    (hasVariants : Bool) :
    List.lookup (calculateRisk drug phenotype hasVariants).risk_label SEVERITY_MAP =
      some (calculateRisk drug phenotype hasVariants).severity := by
  have hall : ∀ t ∈ RISK_RULES.map Prod.snd, ∀ e ∈ t.map Prod.snd,
      List.lookup e.risk SEVERITY_MAP =
        some (jsOrOpt (List.lookup e.risk SEVERITY_MAP) e.severity) := by decide
  unfold calculateRisk
  cases hdr : List.lookup (trimStr (toUpperStr drug)) RISK_RULES with
  | none => rfl
  | some t =>
    show List.lookup (riskFromTable t phenotype).risk_label SEVERITY_MAP =
      some (riskFromTable t phenotype).severity
    unfold riskFromTable
    by_cases hp : phenotype = "" ∨ phenotype = "Unknown"
    · rw [if_pos hp]
      rfl
    · rw [if_neg hp]
      cases he : List.lookup phenotype t with
      | none => rfl
      | some e =>
        show List.lookup e.risk SEVERITY_MAP =
          some (jsOrOpt (List.lookup e.risk SEVERITY_MAP) e.severity)
        exact hall t (lookup_mem_values hdr) e (lookup_mem_values he)

/-- C9: the diplotype `*2/*2` appears in both the CYP2C19 table (as `PM`) and
the CYP2C9 table (as `IM`), and the legacy gene-agnostic `determinePhenotype`
(which scans the gene tables in a fixed order) returns `PM` for it, disagreeing
with the gene-scoped `determinePhenotypeByGene` at (`CYP2C9`, `*2/*2`) even
though `*2/*2` is present in the CYP2C9 table. -/
theorem legacy_determinePhenotype_conflates_genes :
    List.lookup "*2/*2" CYP2C19_PHENOTYPE_MAP = some "PM"
    ∧ List.lookup "*2/*2" CYP2C9_PHENOTYPE_MAP = some "IM"
    ∧ determinePhenotype "*2/*2" = "PM"
    ∧ determinePhenotypeByGene "CYP2C9" "*2/*2" = "IM"
    ∧ determinePhenotype "*2/*2" ≠ determinePhenotypeByGene "CYP2C9" "*2/*2" := by
  refine ⟨by decide, by decide, by decide, by decide, by decide⟩

/-- C3: for each of the four fully-enumerated genes (CYP2C19, CYP2D6, CYP2C9,
TPMT) and every diplotype string, `determinePhenotypeByGene` returns the gene's
static table entry for the normalized diplotype, the entry for the reversed
allele order, or `Unknown`; the activity-score fallback is never applied to
these genes. -/
theorem four_genes_table_only (gene : String)
    (hg : gene = "CYP2C19" ∨ gene = "CYP2D6" ∨ gene = "CYP2C9" ∨ gene = "TPMT")
    (diplotype : String) :
    determinePhenotypeByGene gene diplotype = "Unknown"
    ∨ (List.lookup gene GENE_PHENOTYPE_MAPS).bind
        (List.lookup (normalizeDiplotype diplotype)) =
        some (determinePhenotypeByGene gene diplotype)
    ∨ (List.lookup gene GENE_PHENOTYPE_MAPS).bind
        (List.lookup (reverseDiplotype (normalizeDiplotype diplotype))) =
        some (determinePhenotypeByGene gene diplotype) := by
  by_cases hcheck : gene = "" ∨ diplotype = "" ∨ diplotype = "Unknown"
  · left
    unfold determinePhenotypeByGene
    rw [if_pos hcheck]
  · have hng : trimStr (toUpperStr gene) = gene := by
      rcases hg with rfl | rfl | rfl | rfl <;> decide
    have h1 : gene ≠ "SLCO1B1" := by
      rcases hg with rfl | rfl | rfl | rfl <;> decide
    have h2 : gene ≠ "DPYD" := by
      rcases hg with rfl | rfl | rfl | rfl <;> decide
    unfold determinePhenotypeByGene
    rw [if_neg hcheck, hng]
    exact phenotypeFromTables_no_activity gene h1 h2 (normalizeDiplotype diplotype)

/-- Witness for C3 at gene CYP2C19 and diplotype `*17/*2`. -/
theorem four_genes_table_only_witness :
    ("CYP2C19" = "CYP2C19" ∨ "CYP2C19" = "CYP2D6" ∨ "CYP2C19" = "CYP2C9"
      ∨ "CYP2C19" = "TPMT")
    ∧ (determinePhenotypeByGene "CYP2C19" "*17/*2" = "Unknown"
       ∨ (List.lookup "CYP2C19" GENE_PHENOTYPE_MAPS).bind
           (List.lookup (normalizeDiplotype "*17/*2")) =
           some (determinePhenotypeByGene "CYP2C19" "*17/*2")
       ∨ (List.lookup "CYP2C19" GENE_PHENOTYPE_MAPS).bind
           (List.lookup (reverseDiplotype (normalizeDiplotype "*17/*2"))) =
           some (determinePhenotypeByGene "CYP2C19" "*17/*2")) :=
  ⟨Or.inl rfl, four_genes_table_only "CYP2C19" (Or.inl rfl) "*17/*2"⟩

/-- C5: for every variant list (the empty list included) in which no variant
carries a non-empty star-allele label, the Resolver returns the wild-type
diplotype `*1/*1`. -/
theorem resolver_no_star_wildtype (variants : List Variant)
    (h : ∀ v ∈ variants, v.star_allele = "") :
    determineDiplotype variants = "*1/*1" := by
  have hfilter : (variants.map Variant.star_allele).filter starFilter = [] := by
    rw [List.filter_eq_nil_iff]
    intro s hs
    rw [List.mem_map] at hs
    obtain ⟨w, hw, rfl⟩ := hs
    rw [h w hw]
    decide
  unfold determineDiplotype
  by_cases hv : variants = []
  · rw [if_pos hv]
  · rw [if_neg hv, if_pos hfilter]

/-- Witness for C5 on a one-variant list with an empty star-allele label. -/
theorem resolver_no_star_wildtype_witness :
    (∀ v ∈ [(⟨"10", "94781859", "rs4244285", "G", "A", "CYP2C19", "rs4244285", ""⟩ :
        Variant)], v.star_allele = "")
    ∧ determineDiplotype
        [⟨"10", "94781859", "rs4244285", "G", "A", "CYP2C19", "rs4244285", ""⟩] =
        "*1/*1" :=
  ⟨by decide,
   resolver_no_star_wildtype _ (by decide)⟩

/-- C10: `determineDiplotype` counts only labels that begin with `*`: a variant
list whose labels are all non-empty but do not start with `*` resolves to
`*1/*1`, exactly as if no labels were present. -/
theorem resolver_ignores_non_star_labels (variants : List Variant)
    (h : ∀ v ∈ variants, v.star_allele ≠ "" ∧ strStarts "*" v.star_allele = false) :
    determineDiplotype variants = "*1/*1" := by
  have hfilter : (variants.map Variant.star_allele).filter starFilter = [] := by
    rw [List.filter_eq_nil_iff]
    intro s hs
    rw [List.mem_map] at hs
    obtain ⟨w, hw, rfl⟩ := hs
    simp [starFilter, (h w hw).2]
  unfold determineDiplotype
  by_cases hv : variants = []
  · rw [if_pos hv]
  · rw [if_neg hv, if_pos hfilter]

/-- Witness for C10 on a variant labelled `4` instead of `*4`. -/
theorem resolver_ignores_non_star_labels_witness :
    (∀ v ∈ [(⟨"22", "42130692", "rs3892097", "G", "A", "CYP2D6", "rs3892097", "4"⟩ :
        Variant)], v.star_allele ≠ "" ∧ strStarts "*" v.star_allele = false)
    ∧ determineDiplotype
        [⟨"22", "42130692", "rs3892097", "G", "A", "CYP2D6", "rs3892097", "4"⟩] =
        "*1/*1" :=
  ⟨by decide,
   resolver_ignores_non_star_labels _ (by decide)⟩

/-- C6: an unsupported drug yields risk label `Unknown` with confidence 0.0 and
severity `low` for every phenotype string, whereas a supported drug with a
missing or `Unknown` phenotype yields `Unknown` with confidence 0.50 and
severity `low`. -/
theorem unknown_drug_vs_unknown_phenotype (drug phenotype : String)
    (hasVariants : Bool) :
    (trimStr (toUpperStr drug) ∉ SUPPORTED_DRUGS →
      calculateRisk drug phenotype hasVariants = ⟨"Unknown", 0, "low"⟩)
    ∧ (trimStr (toUpperStr drug) ∈ SUPPORTED_DRUGS →
        (phenotype = "" ∨ phenotype = "Unknown") →
        calculateRisk drug phenotype hasVariants =
          ⟨"Unknown", mkRat 50 100, "low"⟩) := by
  have hkeys : RISK_RULES.map Prod.fst = SUPPORTED_DRUGS := by decide
  constructor
  · intro hns
    have hnone : List.lookup (trimStr (toUpperStr drug)) RISK_RULES = none := by
      apply lookup_eq_none_of
      intro p hp
      have hpk : p.1 ∈ SUPPORTED_DRUGS := by
        rw [← hkeys]
        exact List.mem_map_of_mem Prod.fst hp
      have : trimStr (toUpperStr drug) ≠ p.1 := fun he => hns (he ▸ hpk)
      simp [this]
    unfold calculateRisk
    rw [hnone]
  · intro hs hp
    have hsome : ∃ t, List.lookup (trimStr (toUpperStr drug)) RISK_RULES = some t :=
      lookup_isSome_of_mem (by rw [hkeys]; exact hs)
    obtain ⟨t, ht⟩ := hsome
    unfold calculateRisk
    rw [ht]
    show riskFromTable t phenotype = ⟨"Unknown", mkRat 50 100, "low"⟩
    unfold riskFromTable
    rw [if_pos hp]

/-- Witness for C6: the unsupported drug `ASPIRIN`, and the supported drug
`CLOPIDOGREL` with a missing phenotype. -/
theorem unknown_drug_vs_unknown_phenotype_witness :
    (trimStr (toUpperStr "ASPIRIN") ∉ SUPPORTED_DRUGS
      ∧ calculateRisk "ASPIRIN" "PM" false = ⟨"Unknown", 0, "low"⟩)
    ∧ (trimStr (toUpperStr "CLOPIDOGREL") ∈ SUPPORTED_DRUGS
        ∧ calculateRisk "CLOPIDOGREL" "" false = ⟨"Unknown", mkRat 50 100, "low"⟩) :=
  ⟨⟨by decide, (unknown_drug_vs_unknown_phenotype "ASPIRIN" "PM" false).1 (by decide)⟩,
   ⟨by decide,
    (unknown_drug_vs_unknown_phenotype "CLOPIDOGREL" "" false).2 (by decide)
      (Or.inl rfl)⟩⟩

/-- C7: when no line of the content begins with `#CHROM`, `parseVCF` returns
`success = false`, zero variants, an empty variant list and an empty per-gene
map (and, being a total function, never throws). -/
theorem parser_no_header_empty_result (content : String)
    (h : ∀ l ∈ splitChar '\n' content, strStarts "#CHROM" l = false) :
    parseVCF content = ⟨false, 0, [], [], TARGET_GENES⟩ := by
  have key : ∀ (lines : List String), (∀ l ∈ lines, strStarts "#CHROM" l = false) →
      ∀ (st : ParseState), st.headerFound = false →
      lines.foldl processLine st = st := by
    intro lines
    induction lines with
    | nil => intro _ st _; rfl
    | cons l ls ih =>
      intro hl st hst
      rw [List.foldl_cons]
      have hstep : processLine st l = st := by
        unfold processLine
        by_cases h1 : strStarts "##" l = true
        · rw [if_pos h1]
        · rw [if_neg h1, if_neg (by simp [hl l (List.mem_cons_self l ls)])]
          by_cases h3 : trimStr l = ""
          · rw [if_pos h3]
          · rw [if_neg h3, hst]
            rfl
      rw [hstep]
      exact ih (fun x hx => hl x (List.mem_cons_of_mem l hx)) st hst
  unfold parseVCF
  rw [key (splitChar '\n' content) h ⟨false, [], [], []⟩ rfl]
  rfl

/-- Witness for C7 on a two-line content with no header line. -/
theorem parser_no_header_empty_result_witness :
    (∀ l ∈ splitChar '\n' "no header here\n1\tGENE=CYP2C19",
      strStarts "#CHROM" l = false)
    ∧ parseVCF "no header here\n1\tGENE=CYP2C19" = ⟨false, 0, [], [], TARGET_GENES⟩ :=
  ⟨by decide,
   parser_no_header_empty_result "no header here\n1\tGENE=CYP2C19" (by decide)⟩

/-- Counterexample to C8 as stated: in this content the header declares
`POS` at column index 2 (and `ID`, `REF`, `ALT` beyond it), the data row has
only 2 tab-separated fields — so it does not cover the declared and referenced
`POS` column — yet the row is not skipped: it produces one Variant, with the
uncovered fields defaulted (`pos = ""`, `id = "."`, `ref = ""`, `alt = ""`). -/
theorem parser_short_row_not_skipped :
    List.lookup "POS"
      (buildColumnIndices [] "#CHROM\tINFO\tPOS\tID\tREF\tALT") = some 2
    ∧ (splitChar '\t' "1\tGENE=CYP2C19;STAR=*2").length = 2
    ∧ (parseVCF "#CHROM\tINFO\tPOS\tID\tREF\tALT\n1\tGENE=CYP2C19;STAR=*2").totalVariants = 1
    ∧ (parseVCF "#CHROM\tINFO\tPOS\tID\tREF\tALT\n1\tGENE=CYP2C19;STAR=*2").variants =
        [⟨"1", "", ".", "", "", "CYP2C19", "", "*2"⟩] := by
  refine ⟨by decide, by decide, by decide, by decide⟩

/-- C8 (amended): only the INFO column is guarded — a data line after the
header is skipped exactly when the header declared no INFO column or the
line's tab-separated field count does not cover the declared INFO index;
shortness in the CHROM/POS/ID/REF/ALT positions alone does not skip a row. -/
theorem parser_skips_row_short_of_info (st : ParseState) (line : String)
    (hHeader : st.headerFound = true)
    (hMeta : strStarts "##" line = false)
    (hChrom : strStarts "#CHROM" line = false)
    (hNonEmpty : trimStr line ≠ "")
    (hInfo : ∀ i, List.lookup "INFO" st.columnIndices = some i →
      (splitChar '\t' line).length ≤ i) :
    processLine st line = st := by
  unfold processLine
  rw [if_neg (by simp [hMeta]), if_neg (by simp [hChrom]), if_neg hNonEmpty,
      if_pos hHeader]
  cases hi : List.lookup "INFO" st.columnIndices with
  | none => rfl
  | some i =>
    show (if (splitChar '\t' line).length ≤ i then st else _) = st
    rw [if_pos (hInfo i hi)]

/-- Witness for the amended C8 on a concrete state and short line. -/
theorem parser_skips_row_short_of_info_witness :
    (⟨true, [("INFO", 3)], [], []⟩ : ParseState).headerFound = true
    ∧ strStarts "##" "a\tb" = false
    ∧ strStarts "#CHROM" "a\tb" = false
    ∧ trimStr "a\tb" ≠ ""
    ∧ (splitChar '\t' "a\tb").length ≤ 3
    ∧ processLine ⟨true, [("INFO", 3)], [], []⟩ "a\tb" =
        ⟨true, [("INFO", 3)], [], []⟩ :=
  ⟨rfl, by decide, by decide, by decide, by decide,
   parser_skips_row_short_of_info ⟨true, [("INFO", 3)], [], []⟩ "a\tb" rfl
     (by decide) (by decide) (by decide)
     (fun i hi => by
        have h3 : (some 3 : Option Nat) = some i := hi
        injection h3 with h3
        rw [← h3]
        decide)⟩
